import Mathlib

/-!
Verification of the minidb storage engine (crates `minidb` and `minidb-utils`).

The engine stores each logical table as a directory under a root path, each
record as one file `root/<table>/<id>`, and a single `root/metadata` file.
We give a shallow embedding of the engine's state and operations:

* the filesystem contents of a database root are a `DBState`: the optional
  metadata file, the set of table directories, and an association list from
  `(table, filename)` to the stored blob;
* the external bitcode serializer (`serialize_file` / `deserialize_file` of
  `minidb-utils`) is modelled by the `ser` / `de` fields of a `TableDef`,
  and its atomic temp-file-then-rename write by a pure update of the map;
* the advisory file lock is not modelled: lock acquisition is treated as
  infallible and every call runs to completion in isolation (the code takes
  the lock first in every operation);
* random identifier generation (`cuid2::slug`) and random salt generation
  (`generate_salt`) are modelled by explicit parameters, and Argon2 key
  derivation (`derive_key`) by a function parameter.

Definitions follow `src/minidb/src/lib.rs`, `src/minidb/src/errors.rs` and
`src/minidb-utils/src/pathext.rs` branch for branch.
-/

namespace MiniDB

/-- Error taxonomy, from `src/minidb/src/errors.rs` (`enum DBError`). -/
inductive DBError where
  | FailedToCreateDatabase (path : String)
  | FailedToCreateTableDir (path : String)
  | FailedToDeserializeFile (path : String)
  | FailedToReadMetadata
  | FailedToRemoveFile (path : String)
  | FailedToSerializeFile (path : String)
  | FailedToSerializeMetadata
  | FailedToWriteFile (path : String)
  | FailedToWriteMetadata
  | FileDoesNotExist (path : String)
  | FolderExists (path : String)
  | ForeignKeyViolation (field table id : String)
  | InvalidForeignKey (field table id : String)
  | InvalidKey (id : String)
  | NoDatabasePath
  | NoMetadata
  | NoTables
  | RecordAlreadyExists (table id : String)
  | RecordNotFound (table id : String)
  deriving DecidableEq, Repr

/-- `Id<T>` from `lib.rs`: an optional string slug (the phantom type tag
carries no data and is dropped). -/
structure Id where
  value : Option String
  deriving DecidableEq, Repr

/-- `Display for Id<T>` (`lib.rs` 1006-1013): the underlying string, or the
empty string when unassigned.  This is how an identifier is rendered into a
path segment (`id.to_string()` at every `join`). -/
def Id.render : Id → String
  | ⟨some s⟩ => s
  | ⟨none⟩ => ""

/-- `Id::is_some`. -/
def Id.is_some (i : Id) : Bool := i.value.isSome

/-- `Id::is_none`. -/
def Id.is_none (i : Id) : Bool := i.value.isNone

/-- `ArgonParams` from `minidb-utils/src/crypto.rs` (cost parameters for the
password hash; `u32`/`usize` fields become `Nat`). -/
structure ArgonParams where
  memory : Nat
  iterations : Nat
  parallelism : Nat
  output_len : Nat
  deriving DecidableEq, Repr

/-- `type Salt = [u8; 16]` from `lib.rs`: a 16-byte array. -/
abbrev Salt := { l : List Nat // l.length = 16 }

/-- `struct Metadata` from `lib.rs` 952-957.  The `HashSet<String>` of table
names is modelled as a list. -/
structure Metadata where
  params : Option ArgonParams
  salt : Option Salt
  tables : List String
  deriving DecidableEq

/-- A record value of a table whose non-key payload has type `α`: the `#[key]`
identifier field plus the remaining fields. -/
structure Record (α : Type) where
  id : Id
  payload : α
  deriving DecidableEq, Repr

/-- `AsTable::set_id`. -/
def Record.set_id {α : Type} (r : Record α) (i : Id) : Record α := { r with id := i }

/-- The table capability contract (`AsTable`, `src/minidb/src/traits.rs`)
together with the external bitcode codec for this record type:
`name` is `AsTable::name()`, `fks` is `AsTable::get_foreign_keys()`
(`(field_name, referenced_table, accessor)` triples), and `ser`/`de` model the
external collaborator `serialize_file`/`deserialize_file` of `minidb-utils`
specialised to this type (`de` is partial because deserialization can fail). -/
structure TableDef (α β : Type) where
  name : String
  fks : List (String × String × (Record α → Option String))
  ser : Record α → β
  de : β → Option (Record α)

/-- Lookup in the association list of record files keyed by
`(table_name, file_name)`. -/
def lookupFile {β : Type} : List ((String × String) × β) → String × String → Option β
  | [], _ => none
  | (k, b) :: rest, key => if k = key then some b else lookupFile rest key

/-- Remove every entry with the given key (models `std::fs::remove_file` on
`root/<table>/<file>`; the list never holds duplicate keys because writes
erase first). -/
def eraseFile {β : Type} : List ((String × String) × β) → String × String →
    List ((String × String) × β)
  | [], _ => []
  | (k, b) :: rest, key =>
      if k = key then eraseFile rest key else (k, b) :: eraseFile rest key

/-- The filesystem contents of one database root directory:
the `root/metadata` file (present and well-formed, or absent), the set of
existing table subdirectories, and the record files. -/
structure DBState (β : Type) where
  metadata : Option Metadata
  tableDirs : List String
  files : List ((String × String) × β)
  deriving DecidableEq

/-- The empty root directory. -/
def DBState.empty {β : Type} : DBState β := ⟨none, [], []⟩

/-- `Path::is_file()` on `root/<t>/<i>`.  When `i` is the empty string the
joined path ends in a separator (`root/<t>/`), which the operating system
resolves as a directory reference and never as a regular file, so the check
is false regardless of the directory contents. -/
def DBState.is_file {β : Type} (s : DBState β) (t i : String) : Bool :=
  (decide ¬ i = "") && (lookupFile s.files (t, i)).isSome

/-- Atomic write of a serialized blob to `root/<t>/<i>`
(`serialize_file`'s effect: the file now holds exactly this blob). -/
def DBState.putFile {β : Type} (s : DBState β) (t i : String) (b : β) : DBState β :=
  { s with files := ((t, i), b) :: eraseFile s.files (t, i) }

/-- `std::fs::remove_file` on `root/<t>/<i>`. -/
def DBState.removeFile {β : Type} (s : DBState β) (t i : String) : DBState β :=
  { s with files := eraseFile s.files (t, i) }

/-- `std::fs::create_dir_all` on `root/<t>` (idempotent). -/
def DBState.createDir {β : Type} (s : DBState β) (t : String) : DBState β :=
  if t ∈ s.tableDirs then s else { s with tableDirs := t :: s.tableDirs }

/-- Creating one subdirectory per table named in the metadata
(`meta.tables.par_iter().map(create_dir_all)`, `lib.rs` 938-946; directory
creation errors are not modelled). -/
def DBState.createDirs {β : Type} (s : DBState β) (ts : List String) : DBState β :=
  ts.foldl DBState.createDir s

/-- Whether the root directory is empty: no metadata file, no table
subdirectory, no record file. -/
def DBState.isEmptyState {β : Type} (s : DBState β) : Bool :=
  s.metadata.isNone && s.tableDirs.isEmpty && s.files.isEmpty

/-- `Database::exists_impl_unlocked` (`lib.rs` 658-662): whether
`root/<table_name>/<id>` is a regular file. -/
def exists_impl_unlocked {β : Type} (s : DBState β) (table_name id : String) : Bool :=
  s.is_file table_name id

/-- The foreign-key validation loop shared by `Database::insert`
(`lib.rs` 555-574) and `Database::update` (`lib.rs` 722-741): walk the
declared foreign keys in order; an accessor returning `None` fails
`InvalidForeignKey` (with `fk_id_option.unwrap_or("")`, i.e. the empty
string, as the id), an accessor returning `Some` whose target file is
absent fails `ForeignKeyViolation`; the first failure wins. -/
def checkForeignKeys {α β : Type} (s : DBState β) (r : Record α) :
    List (String × String × (Record α → Option String)) → Option DBError
  | [] => none
  | (field, refTable, acc) :: rest =>
      match acc r with
      | some fkId =>
          if exists_impl_unlocked s refTable fkId then checkForeignKeys s r rest
          else some (.ForeignKeyViolation field refTable fkId)
      | none => some (.InvalidForeignKey field refTable "")

/-- `Database::insert` (`lib.rs` 528-595).  The freshly generated identifier
(`Id::generate()`, a random `cuid2` slug) is passed in as `genId`.  Returns
the final state of the root directory together with the result; failure paths
leave the state exactly as the code left it (the table-directory creation that
precedes the collision check is kept).  Lock acquisition and the
`FailedToReadMetadata` / `FailedToCreateTableDir` / `FailedToSerializeFile`
I/O failures are modelled as infallible. -/
def insert {α β : Type} (T : TableDef α β) (s : DBState β) (r : Record α)
    (genId : String) : DBState β × Except DBError Id :=
  match s.metadata with
  | none => (s, .error .NoMetadata)
  | some meta =>
    if meta.tables = [] then (s, .error .NoTables)
    else
      match r.id.value with
      | some v => (s, .error (.RecordAlreadyExists T.name v))
      | none =>
        match checkForeignKeys s r T.fks with
        | some e => (s, .error e)
        | none =>
          if (s.createDir T.name).is_file T.name genId then
            (s.createDir T.name, .error (.RecordAlreadyExists T.name genId))
          else
            ((s.createDir T.name).putFile T.name genId (T.ser r), .ok ⟨some genId⟩)

/-- `Database::get` (`lib.rs` 439-479): shared lock (infallible here),
unassigned-key check, metadata checks, existence check, deserialize, then
set the looked-up identifier on the deserialized value. -/
def get {α β : Type} (T : TableDef α β) (s : DBState β) (i : Id) :
    Except DBError (Record α) :=
  if i.is_none then .error (.InvalidKey i.render)
  else
    match s.metadata with
    | none => .error .NoMetadata
    | some meta =>
      if meta.tables = [] then .error .NoTables
      else if s.is_file T.name i.render then
        match (lookupFile s.files (T.name, i.render)).bind T.de with
        | some v => .ok (v.set_id i)
        | none => .error (.FailedToDeserializeFile (T.name ++ "/" ++ i.render))
      else .error (.RecordNotFound T.name i.render)

/-- `Database::update` (`lib.rs` 698-760): unassigned-key check, metadata
checks, foreign-key validation, table-directory creation, then fail
`RecordNotFound` if the file is absent (update never creates), else
atomically overwrite it. -/
def update {α β : Type} (T : TableDef α β) (s : DBState β) (r : Record α) :
    DBState β × Except DBError Unit :=
  if r.id.is_none then (s, .error (.InvalidKey r.id.render))
  else
    match s.metadata with
    | none => (s, .error .NoMetadata)
    | some meta =>
      if meta.tables = [] then (s, .error .NoTables)
      else
        match checkForeignKeys s r T.fks with
        | some e => (s, .error e)
        | none =>
          if (s.createDir T.name).is_file T.name r.id.render then
            ((s.createDir T.name).putFile T.name r.id.render (T.ser r), .ok ())
          else
            (s.createDir T.name, .error (.RecordNotFound T.name r.id.render))

/-- `Database::delete` (`lib.rs` 370-408): unassigned-key check, metadata
checks, existence check, then remove the file. -/
def delete {α β : Type} (T : TableDef α β) (s : DBState β) (i : Id) :
    DBState β × Except DBError Unit :=
  if i.is_none then (s, .error (.InvalidKey i.render))
  else
    match s.metadata with
    | none => (s, .error .NoMetadata)
    | some meta =>
      if meta.tables = [] then (s, .error .NoTables)
      else if s.is_file T.name i.render then
        (s.removeFile T.name i.render, .ok ())
      else (s, .error (.RecordNotFound T.name i.render))

/-- `Database::exists` (`lib.rs` 640-655): shared lock (infallible here),
then report whether `root/<table>/<id.to_string()>` is a regular file.
No unassigned-key check and no metadata read; the only failure paths in the
code are lock-file I/O errors, which are not modelled. -/
def existsRecord {α β : Type} (T : TableDef α β) (s : DBState β) (i : Id) :
    Except DBError Bool :=
  .ok (exists_impl_unlocked s T.name i.render)

/-- The open database handle (`struct Database`, `lib.rs` 319-324); the
reference-counted pointers and the lock-file path are flattened away. -/
structure Database where
  derived_key : Option (List Nat)
  path : String
  deriving DecidableEq, Repr

/-- `struct DatabaseBuilder` (`lib.rs` 778-784); the `HashSet<String>` of
declared tables is a list. -/
structure DatabaseBuilder where
  params : Option ArgonParams
  pass : Option String
  path : Option String
  tables : List String

/-- The state of the target root path before `build()`: absent from disk,
an existing non-directory (regular file), or an existing directory with the
given contents. -/
inductive RootState (β : Type) where
  | absent
  | nonDir
  | dir (st : DBState β)

/-- `PathExt::is_empty` (`minidb-utils/src/pathext.rs` 44-56) applied to the
target root: `false` whenever the path is not a directory — including when it
does not exist at all — and otherwise whether `read_dir` yields no entry.
(The `read_dir` I/O failure is not modelled.) -/
def RootState.is_empty {β : Type} : RootState β → Bool
  | .absent => false
  | .nonDir => false
  | .dir st => st.isEmptyState

/-- `DatabaseBuilder::build` (`lib.rs` 886-949).  `salt1` models the value of
the first `generate_salt()` call and `salt2` the second (the second call sits
on a branch that is unreachable because `m.salt` is already set whenever a
password was supplied); `deriveKey` models the external `derive_key`
collaborator.  I/O failures (`FailedToCreateDatabase`,
`FailedToWriteMetadata`, `FailedToCreateTableDir`, `read_dir` errors) are
modelled as infallible. -/
def DatabaseBuilder.build {β : Type} (b : DatabaseBuilder) (root : RootState β)
    (salt1 salt2 : Salt)
    (deriveKey : Option ArgonParams → String → Salt → List Nat) :
    Except DBError (Database × DBState β) :=
  match b.path with
  | none => .error .NoDatabasePath
  | some path =>
    match root.is_empty with
    | false => .error (.FolderExists path)
    | true =>
      if b.tables = [] then .error .NoTables
      else
        let st : DBState β := match root with
          | .dir st => st
          | _ => DBState.empty
        match st.metadata with
        | some meta =>
            .ok ({ derived_key := none, path := path }, st.createDirs meta.tables)
        | none =>
            let initSalt : Option Salt := if b.pass.isSome then some salt1 else none
            let saltAndKey : Option Salt × Option (List Nat) :=
              match b.pass, initSalt with
              | some pass, some s0 => (some s0, some (deriveKey b.params pass s0))
              | some pass, none => (some salt2, some (deriveKey b.params pass salt2))
              | none, s0 => (s0, none)
            let m : Metadata :=
              { params := b.params, salt := saltAndKey.1, tables := b.tables }
            let st1 : DBState β := { st with metadata := some m }
            .ok ({ derived_key := saltAndKey.2, path := path },
                 st1.createDirs m.tables)



theorem lookupFile_eraseFile_self {β : Type} (fs : List ((String × String) × β))
    (k : String × String) : lookupFile (eraseFile fs k) k = none := by
  induction fs with
  | nil => rfl
  | cons hd tl ih =>
    obtain ⟨k', b⟩ := hd
    by_cases h : k' = k
    · simpa [eraseFile, h] using ih
    · simp [eraseFile, h, lookupFile, ih]

theorem lookupFile_eraseFile_ne {β : Type} (fs : List ((String × String) × β))
    (k k' : String × String) (h : ¬ k' = k) :
    lookupFile (eraseFile fs k) k' = lookupFile fs k' := by
  induction fs with
  | nil => rfl
  | cons hd tl ih =>
    obtain ⟨k'', b⟩ := hd
    by_cases h2 : k'' = k
    · have h4 : ¬ k'' = k' := by
        intro hh
        exact h (hh ▸ h2)
      have h5 : ¬ k = k' := fun hh => h hh.symm
      simp [eraseFile, h2, lookupFile, h4, h5, ih]
    · by_cases h3 : k'' = k'
      · simp [eraseFile, h2, lookupFile, h3, h, ih]
      · simp [eraseFile, h2, lookupFile, h3, ih]

theorem lookupFile_putFile_self {β : Type} (s : DBState β) (t i : String) (b : β) :
    lookupFile (s.putFile t i b).files (t, i) = some b := by
  simp [DBState.putFile, lookupFile]

theorem metadata_putFile {β : Type} (s : DBState β) (t i : String) (b : β) :
    (s.putFile t i b).metadata = s.metadata := rfl

theorem metadata_removeFile {β : Type} (s : DBState β) (t i : String) :
    (s.removeFile t i).metadata = s.metadata := rfl

theorem metadata_createDir {β : Type} (s : DBState β) (t : String) :
    (s.createDir t).metadata = s.metadata := by
  unfold DBState.createDir; split <;> rfl

theorem files_createDir {β : Type} (s : DBState β) (t : String) :
    (s.createDir t).files = s.files := by
  unfold DBState.createDir; split <;> rfl

theorem is_file_createDir {β : Type} (s : DBState β) (d t i : String) :
    (s.createDir d).is_file t i = s.is_file t i := by
  simp [DBState.is_file, files_createDir]

theorem is_file_putFile_self {β : Type} (s : DBState β) (t i : String) (b : β)
    (hne : ¬ i = "") : (s.putFile t i b).is_file t i = true := by
  simp [DBState.is_file, lookupFile_putFile_self, hne]

theorem is_file_putFile_ne {β : Type} (s : DBState β) (t i t' i' : String) (b : β)
    (h : ¬ (t', i') = (t, i)) :
    (s.putFile t i b).is_file t' i' = s.is_file t' i' := by
  have h' : ¬ (t, i) = (t', i') := fun hh => h hh.symm
  simp [DBState.is_file, DBState.putFile, lookupFile, h',
    lookupFile_eraseFile_ne _ _ _ h]

theorem is_file_removeFile_self {β : Type} (s : DBState β) (t i : String) :
    (s.removeFile t i).is_file t i = false := by
  simp [DBState.is_file, DBState.removeFile, lookupFile_eraseFile_self]

theorem Id.render_some {i : Id} {v : String} (h : i.value = some v) : i.render = v := by
  obtain ⟨val⟩ := i
  cases h
  rfl

theorem Id.render_none {i : Id} (h : i.value = none) : i.render = "" := by
  obtain ⟨val⟩ := i
  cases h
  rfl

/-- A declared foreign key `(field, ref_table, accessor)` validates on record
`r` in state `s`: the accessor yields an identifier string whose file
`root/<ref_table>/<ref_id>` exists. -/
def fkOk {α β : Type} (s : DBState β) (r : Record α)
    (fk : String × String × (Record α → Option String)) : Prop :=
  ∃ v, fk.2.2 r = some v ∧ exists_impl_unlocked s fk.2.1 v = true

/-- The error the validation loop raises for a failing foreign key:
`InvalidForeignKey` when the accessor yields `None` (the reported id is
`unwrap_or("")`), `ForeignKeyViolation` with the referenced id when the
accessor yields `Some` but the target file is absent. -/
def fkErr {α : Type} (r : Record α)
    (fk : String × String × (Record α → Option String)) : DBError :=
  match fk.2.2 r with
  | none => .InvalidForeignKey fk.1 fk.2.1 ""
  | some v => .ForeignKeyViolation fk.1 fk.2.1 v

theorem checkForeignKeys_first_fail {α β : Type} (s : DBState β) (r : Record α)
    (pre post : List (String × String × (Record α → Option String)))
    (fk : String × String × (Record α → Option String))
    (hpre : ∀ f ∈ pre, fkOk s r f) (hbad : ¬ fkOk s r fk) :
    checkForeignKeys s r (pre ++ fk :: post) = some (fkErr r fk) := by
  induction pre with
  | nil =>
    obtain ⟨field, refT, acc⟩ := fk
    cases h : acc r with
    | none => simp [checkForeignKeys, fkErr, h]
    | some v =>
      have hex : exists_impl_unlocked s refT v = false := by
        by_contra hc
        exact hbad ⟨v, h, by simpa using hc⟩
      simp [checkForeignKeys, fkErr, h, hex]
  | cons f pre' ih =>
    obtain ⟨field, refT, acc⟩ := f
    obtain ⟨v, hv, hex⟩ := hpre _ (List.mem_cons_self _ _)
    have hv' : acc r = some v := hv
    have hex' : exists_impl_unlocked s refT v = true := hex
    have ih' := ih fun f hf => hpre f (List.mem_cons_of_mem _ hf)
    simpa [checkForeignKeys, hv', hex'] using ih'

theorem insert_fk_fail {α β : Type} (T : TableDef α β) (s : DBState β)
    (meta : Metadata) (r : Record α) (genId : String) (e : DBError)
    (hm : s.metadata = some meta) (ht : ¬ meta.tables = [])
    (hid : r.id.value = none) (he : checkForeignKeys s r T.fks = some e) :
    insert T s r genId = (s, .error e) := by
  simp [insert, hm, ht, hid, he]

theorem update_fk_fail {α β : Type} (T : TableDef α β) (s : DBState β)
    (meta : Metadata) (r : Record α) (v : String) (e : DBError)
    (hm : s.metadata = some meta) (ht : ¬ meta.tables = [])
    (hid : r.id.value = some v) (he : checkForeignKeys s r T.fks = some e) :
    update T s r = (s, .error e) := by
  simp [update, Id.is_none, hm, ht, hid, he]

/-- A fixed all-zero salt, standing in for one concrete output of the random
salt generator in concrete evaluations. -/
def zeroSalt : Salt := ⟨List.replicate 16 0, by simp⟩

/-- A trivial concrete key-derivation function for concrete evaluations. -/
def zeroDK : Option ArgonParams → String → Salt → List Nat := fun _ _ _ => []

/-- A concrete table binding for the `Person` table of the repository's tests
(payload: the non-key fields, collapsed to one string); the codec is the
identity, which satisfies the round-trip contract of the external serializer. -/
def examplePersonT : TableDef String (Record String) :=
  { name := "person", fks := [], ser := fun r => r, de := fun b => some b }

/-- Metadata of a database that declares just the `person` table. -/
def examplePersonMeta : Metadata := { params := none, salt := none, tables := ["person"] }

/-- An open, empty single-table database root. -/
def examplePersonS : DBState (Record String) :=
  { metadata := some examplePersonMeta, tableDirs := ["person"], files := [] }

/-- A concrete table binding for an `Order` table with one foreign key
`customer_id` referencing `person` (the payload is the foreign-key field). -/
def exampleOrderT : TableDef (Option String) (Record (Option String)) :=
  { name := "order",
    fks := [("customer_id", "person", fun r => r.payload)],
    ser := fun r => r, de := fun b => some b }

/-- Metadata declaring the `person` and `order` tables. -/
def exampleOrderMeta : Metadata :=
  { params := none, salt := none, tables := ["person", "order"] }

/-- An open two-table database root with no records. -/
def exampleOrderS : DBState (Record (Option String)) :=
  { metadata := some exampleOrderMeta, tableDirs := ["person", "order"], files := [] }

/-- C3: On an open database (metadata present, non-empty table list), both
`insert` and `update` validate the declared foreign keys in declaration
order before performing any filesystem write: when the first failing
foreign key has an accessor yielding `None` the operation fails
`InvalidForeignKey`, when its accessor yields `Some ref_id` but
`root/<ref_table>/<ref_id>` does not exist it fails `ForeignKeyViolation`
(third conjunct spells out `fkErr`), and in either case the returned state
is exactly the input state — no write happened. -/
theorem insert_update_validate_foreign_keys
    {α β : Type} (T : TableDef α β) (s : DBState β) (meta : Metadata)
    (hm : s.metadata = some meta) (ht : ¬ meta.tables = []) :
    (∀ (r : Record α) (genId : String)
        (pre post : List (String × String × (Record α → Option String)))
        (fk : String × String × (Record α → Option String)),
        r.id.value = none → T.fks = pre ++ fk :: post →
        (∀ f ∈ pre, fkOk s r f) → ¬ fkOk s r fk →
        insert T s r genId = (s, .error (fkErr r fk)))
    ∧ (∀ (r : Record α) (v : String)
        (pre post : List (String × String × (Record α → Option String)))
        (fk : String × String × (Record α → Option String)),
        r.id.value = some v → T.fks = pre ++ fk :: post →
        (∀ f ∈ pre, fkOk s r f) → ¬ fkOk s r fk →
        update T s r = (s, .error (fkErr r fk)))
    ∧ (∀ (r : Record α) (fk : String × String × (Record α → Option String)),
        (fk.2.2 r = none → fkErr r fk = .InvalidForeignKey fk.1 fk.2.1 "")
        ∧ ∀ w, fk.2.2 r = some w → fkErr r fk = .ForeignKeyViolation fk.1 fk.2.1 w) := by
  refine ⟨?_, ?_, ?_⟩
  · intro r genId pre post fk hid hsplit hpre hbad
    refine insert_fk_fail T s meta r genId _ hm ht hid ?_
    rw [hsplit]
    exact checkForeignKeys_first_fail s r pre post fk hpre hbad
  · intro r v pre post fk hid hsplit hpre hbad
    refine update_fk_fail T s meta r v _ hm ht hid ?_
    rw [hsplit]
    exact checkForeignKeys_first_fail s r pre post fk hpre hbad
  · intro r fk
    constructor
    · intro h; simp [fkErr, h]
    · intro w h; simp [fkErr, h]

/-- Witness for C3: inserting an order whose `customer_id` references the
absent person `bob` fails `ForeignKeyViolation` leaving the state unchanged,
and updating an order whose `customer_id` accessor yields `None` fails
`InvalidForeignKey` leaving the state unchanged. -/
theorem insert_update_validate_foreign_keys_witness :
    insert exampleOrderT exampleOrderS ⟨⟨none⟩, some "bob"⟩ "o1"
        = (exampleOrderS, .error (.ForeignKeyViolation "customer_id" "person" "bob"))
    ∧ update exampleOrderT exampleOrderS ⟨⟨some "o2"⟩, none⟩
        = (exampleOrderS, .error (.InvalidForeignKey "customer_id" "person" "")) := by
  have h := insert_update_validate_foreign_keys exampleOrderT exampleOrderS
    exampleOrderMeta rfl (by simp [exampleOrderMeta])
  constructor
  · exact h.1 ⟨⟨none⟩, some "bob"⟩ "o1" [] []
      ("customer_id", "person", fun r => r.payload) rfl rfl (by simp)
      (by
        rintro ⟨v, hv, hex⟩
        simp only [Option.some.injEq] at hv
        subst hv
        simp [exists_impl_unlocked, DBState.is_file, exampleOrderS, lookupFile] at hex)
  · exact h.2.1 ⟨⟨some "o2"⟩, none⟩ "o2" [] []
      ("customer_id", "person", fun r => r.payload) rfl rfl (by simp)
      (by rintro ⟨v, hv, _⟩; simp at hv)

/-- C4: Round-trip.  If `insert` of a record `r` succeeds on state `s`
returning identifier `x` and final state `s'` — which requires `r`'s
identifier to be unassigned and its foreign keys satisfied — then `get x`
on `s'` succeeds and returns `r` with identifier `x` set on it.  The
hypotheses model the external collaborators' contracts: the bitcode codec
round-trips, and the generated `cuid2` slug is a non-empty string. -/
theorem get_after_insert_roundtrip
    {α β : Type} (T : TableDef α β) (s s' : DBState β) (r : Record α)
    (genId : String) (x : Id)
    (hrt : T.de (T.ser r) = some r)
    (hgen : ¬ genId = "")
    (hins : insert T s r genId = (s', .ok x)) :
    get T s' x = .ok (r.set_id x) := by
  cases hmeta : s.metadata with
  | none => simp [insert, hmeta] at hins
  | some meta =>
    by_cases htab : meta.tables = []
    · simp [insert, hmeta, htab] at hins
    · cases hid : r.id.value with
      | some v => simp [insert, hmeta, htab, hid] at hins
      | none =>
        cases hfk : checkForeignKeys s r T.fks with
        | some e => simp [insert, hmeta, htab, hid, hfk] at hins
        | none =>
          cases hcol : (s.createDir T.name).is_file T.name genId with
          | true => simp [insert, hmeta, htab, hid, hfk, hcol] at hins
          | false =>
            simp only [insert, hmeta, htab, hid, hfk, hcol, if_neg, if_false,
              Bool.false_eq_true, Prod.mk.injEq, Except.ok.injEq] at hins
            obtain ⟨hs', hx⟩ := hins
            have hm' : s'.metadata = some meta := by
              rw [← hs', metadata_putFile, metadata_createDir, hmeta]
            have hf : s'.is_file T.name genId = true := by
              rw [← hs']; exact is_file_putFile_self _ _ _ _ hgen
            have hlk : lookupFile s'.files (T.name, genId) = some (T.ser r) := by
              rw [← hs']; exact lookupFile_putFile_self _ _ _ _
            subst hx
            simp [get, Id.is_none, Id.render, hm', htab, hf, hlk, hrt]

/-- The root contents after inserting the example person with slug `abc`. -/
def examplePersonSIns : DBState (Record String) :=
  { metadata := some examplePersonMeta, tableDirs := ["person"],
    files := [(("person", "abc"), ⟨⟨none⟩, "John"⟩)] }

/-- Witness for C4: inserting `John` into the example database with
generated slug `abc` and then getting `abc` returns the record with the
identifier set. -/
theorem get_after_insert_roundtrip_witness :
    get examplePersonT examplePersonSIns ⟨some "abc"⟩
      = .ok ⟨⟨some "abc"⟩, "John"⟩ :=
  get_after_insert_roundtrip examplePersonT examplePersonS examplePersonSIns
    ⟨⟨none⟩, "John"⟩ "abc" ⟨some "abc"⟩ rfl (by decide) rfl

/-- C5: Update requires prior existence.  On an open database, updating a
record whose identifier is assigned to `v` but whose file
`root/<table>/<v>` does not exist (and whose foreign keys validate, the
checks that precede the existence check) fails `RecordNotFound` having
written no record file (only the idempotent table-directory creation that
precedes the check happened; the record-file map is unchanged).  The second
conjunct states unconditionally that `update` never creates a record file
at any path where none existed — update never creates. -/
theorem update_requires_prior_existence
    {α β : Type} (T : TableDef α β) :
    (∀ (s : DBState β) (meta : Metadata) (r : Record α) (v : String),
        s.metadata = some meta → ¬ meta.tables = [] →
        r.id.value = some v →
        checkForeignKeys s r T.fks = none →
        s.is_file T.name v = false →
        update T s r = (s.createDir T.name, .error (.RecordNotFound T.name v))
        ∧ (update T s r).1.files = s.files)
    ∧ (∀ (s : DBState β) (r : Record α) (t i : String),
        s.is_file t i = false → ((update T s r).1).is_file t i = false) := by
  constructor
  · intro s meta r v hm ht hid hfk hnf
    have hr := Id.render_some hid
    have h1 : (s.createDir T.name).is_file T.name v = false := by
      rw [is_file_createDir]; exact hnf
    have h2 : update T s r = (s.createDir T.name, .error (.RecordNotFound T.name v)) := by
      simp [update, Id.is_none, hid, hr, hfk, hm, ht, h1]
    exact ⟨h2, by rw [h2]; exact files_createDir s T.name⟩
  · intro s r t i h
    unfold update
    split
    · simpa using h
    · split
      · simpa using h
      · split
        · simpa using h
        · split
          · simpa using h
          · split
            · rename_i hfile
              by_cases hk : (t, i) = (T.name, r.id.render)
              · have hkt : t = T.name := congrArg Prod.fst hk
                have hki : i = r.id.render := congrArg Prod.snd hk
                subst hkt
                subst hki
                rw [is_file_createDir] at hfile
                simp [h] at hfile
              · show ((s.createDir T.name).putFile T.name r.id.render
                  (T.ser r)).is_file t i = false
                rw [is_file_putFile_ne _ _ _ _ _ _ hk, is_file_createDir]
                exact h
            · show ((s.createDir T.name).is_file t i) = false
              rw [is_file_createDir]
              exact h

/-- Witness for C5: updating a never-inserted person `zzz` on the open empty
database fails `RecordNotFound` and leaves the record files unchanged. -/
theorem update_requires_prior_existence_witness :
    update examplePersonT examplePersonS ⟨⟨some "zzz"⟩, "Jane"⟩
        = (examplePersonS, .error (.RecordNotFound "person" "zzz"))
    ∧ (update examplePersonT examplePersonS ⟨⟨some "zzz"⟩, "Jane"⟩).1.files
        = examplePersonS.files :=
  (update_requires_prior_existence examplePersonT).1 examplePersonS
    examplePersonMeta ⟨⟨some "zzz"⟩, "Jane"⟩ "zzz" rfl
    (by simp [examplePersonMeta]) rfl rfl rfl

/-- C6: Delete-then-get.  If `delete id` succeeds, producing state `s'`,
then `get id` on `s'` fails `RecordNotFound` and `exists id` on `s'`
returns `false`. -/
theorem delete_then_get_not_found
    {α β : Type} (T : TableDef α β) (s s' : DBState β) (i : Id)
    (hdel : delete T s i = (s', .ok ())) :
    get T s' i = .error (.RecordNotFound T.name i.render)
    ∧ existsRecord T s' i = .ok false := by
  by_cases hni : i.is_none = true
  · simp [delete, hni] at hdel
  · cases hmeta : s.metadata with
    | none => simp [delete, hni, hmeta] at hdel
    | some meta =>
      by_cases htab : meta.tables = []
      · simp [delete, hni, hmeta, htab] at hdel
      · cases hfile : s.is_file T.name i.render with
        | false => simp [delete, hni, hmeta, htab, hfile] at hdel
        | true =>
          simp [delete, hni, hmeta, htab, hfile, Prod.mk.injEq] at hdel
          have hs' : s.removeFile T.name i.render = s' := hdel
          subst hs'
          have hm' : (s.removeFile T.name i.render).metadata = some meta := by
            rw [metadata_removeFile, hmeta]
          have hf' : (s.removeFile T.name i.render).is_file T.name i.render = false :=
            is_file_removeFile_self s T.name i.render
          constructor
          · simp [get, hni, hm', htab, hf']
          · simp [existsRecord, exists_impl_unlocked, hf']

/-- Witness for C6: deleting the stored person `abc` succeeds and leads to a
state on which `get abc` fails `RecordNotFound` and `exists abc` is false. -/
theorem delete_then_get_not_found_witness :
    get examplePersonT examplePersonS ⟨some "abc"⟩
        = .error (.RecordNotFound "person" "abc")
    ∧ existsRecord examplePersonT examplePersonS ⟨some "abc"⟩ = .ok false :=
  delete_then_get_not_found examplePersonT examplePersonSIns examplePersonS
    ⟨some "abc"⟩ rfl

/-- C7: Insert is for new records only and never overwrites.  On an open
database: a record whose identifier is already assigned to `v` makes
`insert` fail `RecordAlreadyExists` (first conjunct); and if the freshly
generated identifier collides with an existing file, `insert` fails
`RecordAlreadyExists` and the record-file map is unchanged — the existing
file is not overwritten (second conjunct). -/
theorem insert_rejects_assigned_id_and_collision
    {α β : Type} (T : TableDef α β) (s : DBState β) (meta : Metadata)
    (hm : s.metadata = some meta) (ht : ¬ meta.tables = []) :
    (∀ (r : Record α) (v genId : String), r.id.value = some v →
        insert T s r genId = (s, .error (.RecordAlreadyExists T.name v)))
    ∧ (∀ (r : Record α) (genId : String), r.id.value = none →
        checkForeignKeys s r T.fks = none →
        s.is_file T.name genId = true →
        insert T s r genId =
          (s.createDir T.name, .error (.RecordAlreadyExists T.name genId))
        ∧ ((insert T s r genId).1).files = s.files) := by
  constructor
  · intro r v genId hid
    simp [insert, hm, ht, hid]
  · intro r genId hid hfk hcol
    have h1 : (s.createDir T.name).is_file T.name genId = true := by
      rw [is_file_createDir]; exact hcol
    have h2 : insert T s r genId =
        (s.createDir T.name, .error (.RecordAlreadyExists T.name genId)) := by
      simp [insert, hm, ht, hid, hfk, h1]
    exact ⟨h2, by rw [h2]; exact files_createDir s T.name⟩

/-- Witness for C7: inserting a record with a pre-assigned identifier fails
`RecordAlreadyExists`, and inserting a fresh record whose generated slug
collides with the stored file `abc` fails `RecordAlreadyExists` without
touching the record files. -/
theorem insert_rejects_assigned_id_and_collision_witness :
    insert examplePersonT examplePersonSIns ⟨⟨some "abc"⟩, "Jane"⟩ "zzz"
        = (examplePersonSIns, .error (.RecordAlreadyExists "person" "abc"))
    ∧ insert examplePersonT examplePersonSIns ⟨⟨none⟩, "Jane"⟩ "abc"
        = (examplePersonSIns, .error (.RecordAlreadyExists "person" "abc")) := by
  have h := insert_rejects_assigned_id_and_collision examplePersonT
    examplePersonSIns examplePersonMeta rfl (by simp [examplePersonMeta])
  exact ⟨h.1 ⟨⟨some "abc"⟩, "Jane"⟩ "abc" "zzz" rfl,
    (h.2 ⟨⟨none⟩, "Jane"⟩ "abc" rfl rfl rfl).1⟩

/-- C8: Unassigned-key rejection.  For an unassigned identifier (value
`none`), `get`, `update` and `delete` each fail `InvalidKey` regardless of
the database state — no metadata hypothesis is needed because the code
checks the key before reading metadata (the reported key string is the
empty rendering of the unassigned identifier). -/
theorem unassigned_key_rejected_invalid_key
    {α β : Type} (T : TableDef α β) (s : DBState β) (i : Id) (r : Record α)
    (hi : i.value = none) (hr : r.id.value = none) :
    get T s i = .error (.InvalidKey "")
    ∧ update T s r = (s, .error (.InvalidKey ""))
    ∧ delete T s i = (s, .error (.InvalidKey "")) := by
  obtain ⟨val⟩ := i
  cases hi
  obtain ⟨rid, p⟩ := r
  obtain ⟨rv⟩ := rid
  cases hr
  exact ⟨rfl, rfl, rfl⟩

/-- Witness for C8: the three operations with an unassigned identifier on a
database with no metadata at all still fail `InvalidKey`. -/
theorem unassigned_key_rejected_invalid_key_witness :
    get examplePersonT DBState.empty ⟨none⟩ = .error (.InvalidKey "")
    ∧ update examplePersonT DBState.empty ⟨⟨none⟩, "Jane"⟩
        = (DBState.empty, .error (.InvalidKey ""))
    ∧ delete examplePersonT DBState.empty ⟨none⟩
        = (DBState.empty, .error (.InvalidKey "")) :=
  unassigned_key_rejected_invalid_key examplePersonT DBState.empty ⟨none⟩
    ⟨⟨none⟩, "Jane"⟩ rfl rfl

/-- C9: Encryption key handling on a fresh build.  When `build()` is called
with a password on an empty root (so no existing metadata), the generated
16-byte salt (`salt1`, the output of the single reached `generate_salt()`
call; `Salt.val.length = 16` by the `[u8; 16]` type) is stored in the
persisted metadata, the key derived from the password, salt and cost
parameters is cached on the returned handle, and the persisted metadata is
exactly `{params, salt, tables}` — a value built only from the builder's
cost parameters, the salt and the table set, never containing the derived
key. -/
theorem build_fresh_password_key_handling
    {β : Type} (b : DatabaseBuilder) (p pass : String) (st : DBState β)
    (salt1 salt2 : Salt) (dk : Option ArgonParams → String → Salt → List Nat)
    (hp : b.path = some p) (hpass : b.pass = some pass)
    (htab : ¬ b.tables = []) (hempty : st.isEmptyState = true) :
    b.build (.dir st) salt1 salt2 dk =
      .ok ({ derived_key := some (dk b.params pass salt1), path := p },
           DBState.createDirs
             ({ st with metadata := some (Metadata.mk b.params (some salt1) b.tables) })
             b.tables)
    ∧ salt1.val.length = 16 := by
  have hmn : st.metadata = none := by
    simp only [DBState.isEmptyState, Bool.and_eq_true, Option.isNone_iff_eq_none] at hempty
    exact hempty.1.1
  constructor
  · simp [DatabaseBuilder.build, hp, hpass, RootState.is_empty, hempty, htab, hmn]
  · exact salt1.property

/-- A builder that declares `person` and supplies a password. -/
def examplePWBuilder : DatabaseBuilder :=
  { params := none, pass := some "hunter2", path := some "db", tables := ["person"] }

/-- The root contents after a fresh password-protected build: metadata holds
the cost parameters (none) and the salt, never the key. -/
def examplePWRootAfter : DBState Unit :=
  { metadata := some (Metadata.mk none (some zeroSalt) ["person"]),
    tableDirs := ["person"], files := [] }

/-- Witness for C9: a fresh password-protected build on an empty root
returns a handle caching the derived key and persists metadata containing
only parameters, salt and tables. -/
theorem build_fresh_password_key_handling_witness :
    examplePWBuilder.build (RootState.dir (DBState.empty (β := Unit)))
        zeroSalt zeroSalt zeroDK
      = .ok ({ derived_key := some [], path := "db" }, examplePWRootAfter)
    ∧ zeroSalt.val.length = 16 :=
  build_fresh_password_key_handling examplePWBuilder "db" "hunter2"
    DBState.empty zeroSalt zeroSalt zeroDK rfl rfl (by simp [examplePWBuilder]) rfl

/-- C10: For an unassigned identifier, `exists` succeeds and returns
`false` rather than failing `InvalidKey`, for every database state:
`exists` performs no assignment check, the unassigned identifier renders
as the empty string, and the path `root/<table>/` is never a regular
file. -/
theorem exists_unassigned_returns_false
    {α β : Type} (T : TableDef α β) (s : DBState β) (i : Id)
    (hi : i.value = none) :
    existsRecord T s i = .ok false := by
  obtain ⟨val⟩ := i
  cases hi
  simp [existsRecord, exists_impl_unlocked, DBState.is_file, Id.render]

/-- Witness for C10: `exists` with an unassigned identifier returns
`Ok(false)` even on a database that stores a record. -/
theorem exists_unassigned_returns_false_witness :
    existsRecord examplePersonT examplePersonSIns ⟨none⟩ = .ok false :=
  exists_unassigned_returns_false examplePersonT examplePersonSIns ⟨none⟩ rfl

/-- A builder with a path and one declared table, for evaluating `build()`
at concrete inputs. -/
def exampleBuilder : DatabaseBuilder :=
  { params := none, pass := none, path := some "db", tables := ["person"] }

/-- The root contents a successful build leaves behind: the metadata file
and the `person` table directory exist. -/
def exampleRootAfterBuild : DBState Unit :=
  { metadata := some examplePersonMeta, tableDirs := ["person"], files := [] }

/-- C1 (failing-input evaluation): building at an existing empty directory
succeeds and leaves the metadata file behind, after which building a second
time against the same root with the same table set does not succeed: the
root is now a non-empty directory, `PathExt::is_empty` returns `Ok(false)`,
and `build()` maps that to `FolderExists` before ever reaching the
adopt-existing-metadata branch. -/
theorem build_reopen_returns_folder_exists :
    exampleBuilder.build (RootState.dir (DBState.empty (β := Unit)))
        zeroSalt zeroSalt zeroDK
      = .ok ({ derived_key := none, path := "db" }, exampleRootAfterBuild)
    ∧ exampleBuilder.build (RootState.dir exampleRootAfterBuild)
        zeroSalt zeroSalt zeroDK
      = .error (.FolderExists "db") := ⟨rfl, rfl⟩

/-- C2 (failing-input evaluation): `build()` against a path that does not
exist on disk fails with `FolderExists` — `PathExt::is_empty` answers
`Ok(false)` for a nonexistent path because `is_dir()` is false, and
`build()` treats every `Ok(false)` as "folder exists and is not empty";
the recursive `create_dir_all` below the check is never reached. -/
theorem build_nonexistent_path_returns_folder_exists :
    exampleBuilder.build (RootState.absent (β := Unit)) zeroSalt zeroSalt zeroDK
      = .error (.FolderExists "db") := rfl

end MiniDB
